import Mathlib

/-!
Verification of the Xen HVM driver attachment core
(src/arch/x86/drivers/xen/hvm.c) against its design specification.

The driver is shallowly embedded: every external primitive (CPUID, MSR
write, DMA allocation, virtual mapping, hypercall) is an oracle field of
an environment record, and each driver function is a pure Lean function
from the environment and the device state to a result, an updated state,
and a trace of the external calls it issued.
-/

set_option maxRecDepth 100000

namespace HvmSpec

/-- Page size on x86, as used by the driver for all length computations. -/
def PAGE_SIZE : Nat := 4096

/-- Xen DOMID_SELF constant, used as the domid of every physmap request. -/
def DOMID_SELF : Nat := 0x7ff0

/-- Modelled from the spec: hvm.h is not under src. Lowest CPUID leaf of the
fixed scan range described in section 4.1 of the spec. -/
def HVM_CPUID_MIN : Nat := 0x40000000

/-- Modelled from the spec: hvm.h is not under src. Highest CPUID leaf of the
fixed scan range. -/
def HVM_CPUID_MAX : Nat := 0x4000ff00

/-- Modelled from the spec: hvm.h is not under src. Stride of the scan. -/
def HVM_CPUID_STEP : Nat := 0x100

/-- Modelled from the spec: hvm.h is not under src. The magic signature as the
three result registers ebx, ecx, edx, compared byte for byte. -/
def HVM_CPUID_MAGIC : Nat × Nat × Nat := (0x566e6558, 0x65584d4d, 0x4d4d566e)

/-- Modelled from the spec: hvm.h is not under src. Offset of the leaf giving
the hypercall page count and MSR identifier. -/
def HVM_CPUID_PAGES : Nat := 2

/-- Modelled from the spec: xen headers are not under src. Mapping space kind
for the shared info page. -/
def XENMAPSPACE_shared_info : Nat := 0

/-- Modelled from the spec: xen headers are not under src. Mapping space kind
for the grant table. -/
def XENMAPSPACE_grant_table : Nat := 1

/-- Modelled from the spec: xen headers are not under src. Parameter key for
the XenStore page frame number. -/
def HVM_PARAM_STORE_PFN : Nat := 1

/-- Modelled from the spec: xen headers are not under src. Parameter key for
the XenStore event channel. -/
def HVM_PARAM_STORE_EVTCHN : Nat := 2

/-- Modelled from the spec: xengrant.h is not under src. Size in bytes of one
version 2 grant table entry, the divisor in the capacity computation. -/
def GRANT_ENTRY_V2_SIZE : Nat := 16

/-- Number of leaves visited by the CPUID scan loop. -/
def HVM_NR_LEAVES : Nat := (HVM_CPUID_MAX - HVM_CPUID_MIN) / HVM_CPUID_STEP + 1

/-- The i-th candidate leaf of the scan. -/
def hvmLeaf (i : Nat) : Nat := HVM_CPUID_MIN + i * HVM_CPUID_STEP

/-- Result registers of one CPUID invocation. -/
structure CpuidRegs where
  eax : Nat
  ebx : Nat
  ecx : Nat
  edx : Nat
  deriving DecidableEq, Repr

/-- Argument structure of the add-to-physmap hypercall, mirroring
struct xen_add_to_physmap. -/
structure AddToPhysmap where
  domid : Nat
  idx : Nat
  space : Nat
  gpfn : Nat
  deriving DecidableEq, Repr

/-- Argument structure of the remove-from-physmap hypercall, mirroring
struct xen_remove_from_physmap. -/
structure RemoveFromPhysmap where
  domid : Nat
  gpfn : Nat
  deriving DecidableEq, Repr

/-- Error results of the driver, mirroring the iPXE status codes the file
returns. EXEN wraps a raw hypervisor status, as the C macro EXEN does. -/
inductive Err where
  | ENOMEM
  | ENODEV
  | ENOTTY
  | EXEN (status : Int)
  deriving DecidableEq, Repr

/-- Grant table portion of struct xen_hypervisor. -/
structure xen_grant where
  table : Nat
  count : Nat
  deriving DecidableEq, Repr

/-- XenStore portion of struct xen_hypervisor. -/
structure xen_store where
  port : Nat
  intf : Nat
  deriving DecidableEq, Repr

/-- The xen handle embedded in the device state, mirroring the fields of
struct xen_hypervisor that this file writes. -/
structure xen_hypervisor where
  hypercall : Nat
  shared : Nat
  grant : xen_grant
  store : xen_store
  deriving DecidableEq, Repr

/-- Device attachment state, mirroring struct hvm_device. Addresses are
naturals; a field is zero until the corresponding stage populates it. -/
structure hvm_device where
  mmio : Nat
  mmio_len : Nat
  mmio_offset : Nat
  cpuid_base : Nat
  hypercall_len : Nat
  xen : xen_hypervisor
  deriving DecidableEq, Repr

/-- One externally visible call issued by the driver. Each constructor
records the arguments and, where relevant, the oracle result. -/
inductive Event where
  | mallocDma (len : Nat) (res : Option Nat)
  | freeDma (ptr len : Nat)
  | wrmsrE (msr val : Nat)
  | versionQ (v : Int)
  | extraversionQ (rc : Int)
  | ioremapE (phys len : Nat) (res : Option Nat)
  | iounmapE (addr : Nat)
  | addE (a : AddToPhysmap) (rc : Int)
  | removeE (r : RemoveFromPhysmap) (rc : Int)
  | readWallclock (v : Nat)
  | querySizeE (rc : Int)
  | setVersionE (req : Nat) (rc : Int) (reported : Nat)
  | getParamE (key : Nat) (rc : Int)
  | xenstoreReadE (res : Option Err)
  deriving DecidableEq, Repr

/-- Resource-acquiring stages of the attach sequence, as named by the spec
state machine in section 4.7. The locator acquires nothing and is traced
separately. -/
inductive Stage where
  | transport
  | sharedInfo
  | grantTable
  | xenstore
  | bus
  deriving DecidableEq, Repr

/-- Orchestrator-level trace: component calls made by hvm_probe and
hvm_remove. Acquire events carry whether the component succeeded. -/
inductive OrchEvent where
  | locate (ok : Bool)
  | acquire (s : Stage) (ok : Bool)
  | release (s : Stage)
  deriving DecidableEq, Repr

/-- Oracle for every external primitive the driver calls. A fixed
environment describes one deterministic hypervisor and memory system. -/
structure Env where
  cpuid : Nat → CpuidRegs
  malloc_dma : Nat → Nat → Option Nat
  virt_to_phys : Nat → Nat
  xenver_version : Int
  extraversion_rc : Int
  ioremapFn : Nat → Nat → Option Nat
  addRc : AddToPhysmap → Int
  removeRc : RemoveFromPhysmap → Int
  wallclock : Nat
  querySize_rc : Int
  querySize_frames : Nat
  setVersion : Nat → Int × Nat
  getParam : Nat → Int × Nat
  xenstore_read : Option Err
  xenbus_probe_rc : Option Err
  zalloc_ok : Bool
  junk_remove_gpfn : Nat

/-- The three signature registers returned by CPUID at a leaf, the quantity
hvm_cpuid_base compares against the magic constant. -/
def cpuidSig (env : Env) (leaf : Nat) : Nat × Nat × Nat :=
  ((env.cpuid leaf).ebx, (env.cpuid leaf).ecx, (env.cpuid leaf).edx)

/-- Scan loop of hvm_cpuid_base. The fuel argument counts the candidates
still to visit; the driver calls it with exactly the number of leaves in
the range, so the bound check on base mirrors the loop condition. The
extra CPUID read of the adjacent version leaf on a match is diagnostic
only and is not modelled. -/
def hvm_scan (env : Env) : Nat → Nat → Option Nat
  | _, 0 => none
  | base, n+1 =>
    if base > HVM_CPUID_MAX then none
    else if cpuidSig env base = HVM_CPUID_MAGIC then some base
    else hvm_scan env (base + HVM_CPUID_STEP) n

/-- hvm_cpuid_base: scan the fixed leaf range for the magic signature and
return the first matching base, or none for the C return of -ENODEV. -/
def hvm_cpuid_base (env : Env) : Option Nat :=
  hvm_scan env HVM_CPUID_MIN HVM_NR_LEAVES

/-- hvm_map_hypercall. Reads the page count and MSR via CPUID, allocates
DMA pages, writes the MSR, then issues the version and extraversion
queries. Only the extraversion status is tested; on its failure the
function returns the wrapped status without freeing the allocation,
exactly as the C code does. -/
def hvm_map_hypercall (env : Env) (hvm : hvm_device) :
    Except Err Unit × hvm_device × List Event :=
  let c := env.cpuid (hvm.cpuid_base + HVM_CPUID_PAGES)
  let hlen := c.eax * PAGE_SIZE
  let hvm1 := { hvm with hypercall_len := hlen }
  match env.malloc_dma hlen PAGE_SIZE with
  | none => (Except.error Err.ENOMEM, hvm1, [Event.mallocDma hlen none])
  | some ptr =>
    let hvm2 := { hvm1 with xen := { hvm1.xen with hypercall := ptr } }
    let phys := env.virt_to_phys ptr
    let tr := [Event.mallocDma hlen (some ptr), Event.wrmsrE c.ebx phys,
               Event.versionQ env.xenver_version,
               Event.extraversionQ env.extraversion_rc]
    if env.extraversion_rc ≠ 0 then
      (Except.error (Err.EXEN env.extraversion_rc), hvm2, tr)
    else
      (Except.ok (), hvm2, tr)

/-- hvm_unmap_hypercall: free the DMA pages. The struct is not modified. -/
def hvm_unmap_hypercall (env : Env) (hvm : hvm_device) :
    hvm_device × List Event :=
  (hvm, [Event.freeDma hvm.xen.hypercall hvm.hypercall_len])

/-- Forward loop of hvm_ioremap: one add-to-physmap request per page, in
index order, stopping at the first nonzero status. Returns the events and
the failing index, if any. -/
def hvm_add_loop (env : Env) (space mmio_phys : Nat) :
    Nat → Nat → List Event × Option Nat
  | _, 0 => ([], none)
  | i, n+1 =>
    let a : AddToPhysmap :=
      { domid := DOMID_SELF, idx := i, space := space,
        gpfn := mmio_phys / PAGE_SIZE + i }
    let rc := env.addRc a
    if rc ≠ 0 then ([Event.addE a rc], some i)
    else
      let rest := hvm_add_loop env space mmio_phys (i+1) n
      (Event.addE a rc :: rest.1, rest.2)

/-- Error-path rollback loop of hvm_ioremap, one iteration per previously
added page, counting down. The C body assigns the recomputed frame number
to the gpfn field of the dead add request and never writes the gpfn field
of the remove request, so every remove request goes out carrying the
indeterminate initial value of the local, modelled by the oracle field
junk_remove_gpfn. -/
def hvm_ioremap_rollback (env : Env) : Nat → List Event
  | 0 => []
  | n+1 =>
    let r : RemoveFromPhysmap :=
      { domid := DOMID_SELF, gpfn := env.junk_remove_gpfn }
    Event.removeE r (env.removeRc r) :: hvm_ioremap_rollback env n

/-- hvm_ioremap: bump-allocate pages from the MMIO window. The space check
comes first and issues nothing on failure; then the virtual mapping; then
one add-to-physmap per page, with rollback and unmapping on any failure;
the bump offset advances only on full success. -/
def hvm_ioremap (env : Env) (hvm : hvm_device) (space pages : Nat) :
    Option Nat × hvm_device × List Event :=
  let len := pages * PAGE_SIZE
  if hvm.mmio_offset + len > hvm.mmio_len then (none, hvm, [])
  else
    match env.ioremapFn (hvm.mmio + hvm.mmio_offset) len with
    | none => (none, hvm, [Event.ioremapE (hvm.mmio + hvm.mmio_offset) len none])
    | some mmio =>
      let mmio_phys := env.virt_to_phys mmio
      let res := hvm_add_loop env space mmio_phys 0 pages
      match res.2 with
      | none =>
        (some mmio, { hvm with mmio_offset := hvm.mmio_offset + len },
          Event.ioremapE (hvm.mmio + hvm.mmio_offset) len (some mmio) :: res.1)
      | some i =>
        (none, hvm,
          Event.ioremapE (hvm.mmio + hvm.mmio_offset) len (some mmio) :: res.1
            ++ hvm_ioremap_rollback env i ++ [Event.iounmapE mmio])

/-- Removal loop of hvm_iounmap: one remove-from-physmap per page, in index
order, each carrying the correctly recomputed frame number; failures are
only logged. -/
def hvm_iounmap_loop (env : Env) (mmio_phys : Nat) :
    Nat → Nat → List Event
  | _, 0 => []
  | i, n+1 =>
    let r : RemoveFromPhysmap :=
      { domid := DOMID_SELF, gpfn := mmio_phys / PAGE_SIZE + i }
    Event.removeE r (env.removeRc r) :: hvm_iounmap_loop env mmio_phys (i+1) n

/-- hvm_iounmap: unmap the virtual range then remove each page from the
physmap. The device state is not modified. -/
def hvm_iounmap (env : Env) (hvm : hvm_device) (mmio pages : Nat) :
    hvm_device × List Event :=
  (hvm, Event.iounmapE mmio ::
    hvm_iounmap_loop env (env.virt_to_phys mmio) 0 pages)

/-- hvm_map_shared_info: one page via hvm_ioremap with the shared-info
space kind; a NULL result is reported as ENOMEM; on success the wallclock
field is read for diagnostics only. -/
def hvm_map_shared_info (env : Env) (hvm : hvm_device) :
    Except Err Unit × hvm_device × List Event :=
  match hvm_ioremap env hvm XENMAPSPACE_shared_info 1 with
  | (none, hvm1, tr) => (Except.error Err.ENOMEM, hvm1, tr)
  | (some p, hvm1, tr) =>
    (Except.ok (), { hvm1 with xen := { hvm1.xen with shared := p } },
      tr ++ [Event.readWallclock env.wallclock])

/-- hvm_unmap_shared_info: release the one page via hvm_iounmap. -/
def hvm_unmap_shared_info (env : Env) (hvm : hvm_device) :
    hvm_device × List Event :=
  hvm_iounmap env hvm hvm.xen.shared 1

/-- hvm_map_grant: query the table size, request version 2, fail with
ENOTTY when the reported version differs from 2 even though the call
succeeded, then map the frames via hvm_ioremap with the grant-table space
kind; a NULL mapping is reported as ENODEV. -/
def hvm_map_grant (env : Env) (hvm : hvm_device) :
    Except Err Unit × hvm_device × List Event :=
  if env.querySize_rc ≠ 0 then
    (Except.error (Err.EXEN env.querySize_rc), hvm,
      [Event.querySizeE env.querySize_rc])
  else
    let len := env.querySize_frames * PAGE_SIZE
    let sv := env.setVersion 2
    if sv.1 ≠ 0 then
      (Except.error (Err.EXEN sv.1), hvm,
        [Event.querySizeE env.querySize_rc, Event.setVersionE 2 sv.1 sv.2])
    else if sv.2 ≠ 2 then
      (Except.error Err.ENOTTY, hvm,
        [Event.querySizeE env.querySize_rc, Event.setVersionE 2 sv.1 sv.2])
    else
      match hvm_ioremap env hvm XENMAPSPACE_grant_table env.querySize_frames with
      | (none, hvm1, tr) =>
        (Except.error Err.ENODEV, hvm1,
          Event.querySizeE env.querySize_rc :: Event.setVersionE 2 sv.1 sv.2 :: tr)
      | (some table, hvm1, tr) =>
        (Except.ok (),
          { hvm1 with xen := { hvm1.xen with
              grant := { table := table, count := len / GRANT_ENTRY_V2_SIZE } } },
          Event.querySizeE env.querySize_rc :: Event.setVersionE 2 sv.1 sv.2 :: tr)

/-- hvm_unmap_grant: recompute the page count from the stored capacity and
release via hvm_iounmap. -/
def hvm_unmap_grant (env : Env) (hvm : hvm_device) :
    hvm_device × List Event :=
  hvm_iounmap env hvm hvm.xen.grant.table
    (hvm.xen.grant.count * GRANT_ENTRY_V2_SIZE / PAGE_SIZE)

/-- hvm_map_xenstore: read the event channel and page frame number
parameters, map the page at the dictated physical address, then perform
the sanity read of the domain name. On a failed sanity read the function
returns the read status without unmapping, exactly as the C code does. -/
def hvm_map_xenstore (env : Env) (hvm : hvm_device) :
    Except Err Unit × hvm_device × List Event :=
  let g1 := env.getParam HVM_PARAM_STORE_EVTCHN
  if g1.1 ≠ 0 then
    (Except.error (Err.EXEN g1.1), hvm,
      [Event.getParamE HVM_PARAM_STORE_EVTCHN g1.1])
  else
    let hvm1 := { hvm with xen := { hvm.xen with
        store := { hvm.xen.store with port := g1.2 } } }
    let g2 := env.getParam HVM_PARAM_STORE_PFN
    if g2.1 ≠ 0 then
      (Except.error (Err.EXEN g2.1), hvm1,
        [Event.getParamE HVM_PARAM_STORE_EVTCHN g1.1,
         Event.getParamE HVM_PARAM_STORE_PFN g2.1])
    else
      let xenstore_phys := g2.2 * PAGE_SIZE
      match env.ioremapFn xenstore_phys PAGE_SIZE with
      | none =>
        (Except.error Err.ENODEV, hvm1,
          [Event.getParamE HVM_PARAM_STORE_EVTCHN g1.1,
           Event.getParamE HVM_PARAM_STORE_PFN g2.1,
           Event.ioremapE xenstore_phys PAGE_SIZE none])
      | some intf =>
        let hvm2 := { hvm1 with xen := { hvm1.xen with
            store := { hvm1.xen.store with intf := intf } } }
        let tr := [Event.getParamE HVM_PARAM_STORE_EVTCHN g1.1,
                   Event.getParamE HVM_PARAM_STORE_PFN g2.1,
                   Event.ioremapE xenstore_phys PAGE_SIZE (some intf),
                   Event.xenstoreReadE env.xenstore_read]
        match env.xenstore_read with
        | some e => (Except.error e, hvm2, tr)
        | none => (Except.ok (), hvm2, tr)

/-- hvm_unmap_xenstore: release the fixed-address mapping; no physmap
removal is issued for this page. -/
def hvm_unmap_xenstore (env : Env) (hvm : hvm_device) :
    hvm_device × List Event :=
  (hvm, [Event.iounmapE hvm.xen.store.intf])

/-- The zeroed device state hvm_probe creates, with the window base and
length read from the PCI BAR and the CPUID base written by the locator. -/
def hvm_init (m l base : Nat) : hvm_device :=
  { mmio := m, mmio_len := l, mmio_offset := 0, cpuid_base := base,
    hypercall_len := 0,
    xen := { hypercall := 0, shared := 0,
             grant := { table := 0, count := 0 },
             store := { port := 0, intf := 0 } } }

/-- hvm_probe: the attach orchestrator. Allocates the zeroed device state,
runs the stages in dependency order, and on a stage failure unwinds, in
reverse order, exactly the release calls of the goto chain of the C
function. Returns the final state on success, the raw call trace, and the
orchestrator-level trace. -/
def hvm_probe (env : Env) (m l : Nat) :
    Except Err hvm_device × List Event × List OrchEvent :=
  if env.zalloc_ok then
    match hvm_cpuid_base env with
    | none => (Except.error Err.ENODEV, ([], [OrchEvent.locate false]))
    | some base =>
      match hvm_map_hypercall env (hvm_init m l base) with
      | (Except.error e, _, t1) =>
        (Except.error e, (t1,
          [OrchEvent.locate true, OrchEvent.acquire Stage.transport false]))
      | (Except.ok _, hvm2, t1) =>
        match hvm_map_shared_info env hvm2 with
        | (Except.error e, hvm3, t2) =>
          let u1 := hvm_unmap_hypercall env hvm3
          (Except.error e, (t1 ++ t2 ++ u1.2,
            [OrchEvent.locate true, OrchEvent.acquire Stage.transport true,
             OrchEvent.acquire Stage.sharedInfo false,
             OrchEvent.release Stage.transport]))
        | (Except.ok _, hvm3, t2) =>
          match hvm_map_grant env hvm3 with
          | (Except.error e, hvm4, t3) =>
            let u1 := hvm_unmap_shared_info env hvm4
            let u2 := hvm_unmap_hypercall env u1.1
            (Except.error e, (t1 ++ t2 ++ t3 ++ u1.2 ++ u2.2,
              [OrchEvent.locate true, OrchEvent.acquire Stage.transport true,
               OrchEvent.acquire Stage.sharedInfo true,
               OrchEvent.acquire Stage.grantTable false,
               OrchEvent.release Stage.sharedInfo,
               OrchEvent.release Stage.transport]))
          | (Except.ok _, hvm4, t3) =>
            match hvm_map_xenstore env hvm4 with
            | (Except.error e, hvm5, t4) =>
              let u1 := hvm_unmap_grant env hvm5
              let u2 := hvm_unmap_shared_info env u1.1
              let u3 := hvm_unmap_hypercall env u2.1
              (Except.error e, (t1 ++ t2 ++ t3 ++ t4 ++ u1.2 ++ u2.2 ++ u3.2,
                [OrchEvent.locate true, OrchEvent.acquire Stage.transport true,
                 OrchEvent.acquire Stage.sharedInfo true,
                 OrchEvent.acquire Stage.grantTable true,
                 OrchEvent.acquire Stage.xenstore false,
                 OrchEvent.release Stage.grantTable,
                 OrchEvent.release Stage.sharedInfo,
                 OrchEvent.release Stage.transport]))
            | (Except.ok _, hvm5, t4) =>
              match env.xenbus_probe_rc with
              | some e =>
                let u1 := hvm_unmap_xenstore env hvm5
                let u2 := hvm_unmap_grant env u1.1
                let u3 := hvm_unmap_shared_info env u2.1
                let u4 := hvm_unmap_hypercall env u3.1
                (Except.error e,
                  (t1 ++ t2 ++ t3 ++ t4 ++ u1.2 ++ u2.2 ++ u3.2 ++ u4.2,
                  [OrchEvent.locate true, OrchEvent.acquire Stage.transport true,
                   OrchEvent.acquire Stage.sharedInfo true,
                   OrchEvent.acquire Stage.grantTable true,
                   OrchEvent.acquire Stage.xenstore true,
                   OrchEvent.acquire Stage.bus false,
                   OrchEvent.release Stage.xenstore,
                   OrchEvent.release Stage.grantTable,
                   OrchEvent.release Stage.sharedInfo,
                   OrchEvent.release Stage.transport]))
              | none =>
                (Except.ok hvm5, (t1 ++ t2 ++ t3 ++ t4,
                  [OrchEvent.locate true, OrchEvent.acquire Stage.transport true,
                   OrchEvent.acquire Stage.sharedInfo true,
                   OrchEvent.acquire Stage.grantTable true,
                   OrchEvent.acquire Stage.xenstore true,
                   OrchEvent.acquire Stage.bus true]))
  else
    (Except.error Err.ENOMEM, ([], []))

/-- hvm_remove: the detach path, releasing everything unconditionally in
strict reverse order of acquisition. The bus teardown issues no raw calls
modelled here. -/
def hvm_remove (env : Env) (hvm : hvm_device) : List Event × List OrchEvent :=
  let u1 := hvm_unmap_xenstore env hvm
  let u2 := hvm_unmap_grant env u1.1
  let u3 := hvm_unmap_shared_info env u2.1
  let u4 := hvm_unmap_hypercall env u3.1
  (u1.2 ++ u2.2 ++ u3.2 ++ u4.2,
    [OrchEvent.release Stage.bus, OrchEvent.release Stage.xenstore,
     OrchEvent.release Stage.grantTable, OrchEvent.release Stage.sharedInfo,
     OrchEvent.release Stage.transport])

/-- Contribution of one event to the count of DMA allocations held. -/
def dmaDelta : Event → Int
  | Event.mallocDma _ (some _) => 1
  | Event.freeDma _ _ => -1
  | _ => 0

/-- Contribution of one event to the count of virtual mappings held. -/
def mapDelta : Event → Int
  | Event.ioremapE _ _ (some _) => 1
  | Event.iounmapE _ => -1
  | _ => 0

/-- Net count of DMA allocations still held at the end of a trace. -/
def dmaBalance (tr : List Event) : Int := (tr.map dmaDelta).sum

/-- Net count of virtual mappings still held at the end of a trace. -/
def mapBalance (tr : List Event) : Int := (tr.map mapDelta).sum

/-- Trace balances add over concatenation. -/
lemma dmaBalance_append (a b : List Event) :
    dmaBalance (a ++ b) = dmaBalance a + dmaBalance b := by
  simp [dmaBalance]

/-- Trace balances add over concatenation. -/
lemma mapBalance_append (a b : List Event) :
    mapBalance (a ++ b) = mapBalance a + mapBalance b := by
  simp [mapBalance]

/-- Stages successfully acquired, in order, of an orchestrator trace. -/
def okAcquires : List OrchEvent → List Stage
  | [] => []
  | OrchEvent.acquire s true :: tl => s :: okAcquires tl
  | _ :: tl => okAcquires tl

/-- Stages released, in order, of an orchestrator trace. -/
def releasesOf : List OrchEvent → List Stage
  | [] => []
  | OrchEvent.release s :: tl => s :: releasesOf tl
  | _ :: tl => releasesOf tl

/-- A hypervisor environment in which every operation succeeds: the magic
signature sits at the first scanned leaf, the hypercall transport needs
one page installed via MSR 99, virtual mappings are the identity on the
physical address, and every hypercall returns status zero. -/
def envAll : Env :=
  { cpuid := fun leaf =>
      if leaf = HVM_CPUID_MIN then
        { eax := 0, ebx := 0x566e6558, ecx := 0x65584d4d, edx := 0x4d4d566e }
      else
        { eax := 1, ebx := 99, ecx := 0, edx := 0 }
    malloc_dma := fun _ _ => some 0x2000
    virt_to_phys := fun v => v
    xenver_version := 0x40011
    extraversion_rc := 0
    ioremapFn := fun phys _ => some phys
    addRc := fun _ => 0
    removeRc := fun _ => 0
    wallclock := 42
    querySize_rc := 0
    querySize_frames := 1
    setVersion := fun _ => (0, 2)
    getParam := fun _ => (0, 3)
    xenstore_read := none
    xenbus_probe_rc := none
    zalloc_ok := true
    junk_remove_gpfn := 999 }

/-- A device state as hvm_probe creates it once the locator has run: a
64 KiB MMIO window at 1 MiB and a fresh bump offset. -/
def stW : hvm_device :=
  { mmio := 0x100000, mmio_len := 0x10000, mmio_offset := 0,
    cpuid_base := HVM_CPUID_MIN, hypercall_len := 0,
    xen := { hypercall := 0, shared := 0, grant := { table := 0, count := 0 },
             store := { port := 0, intf := 0 } } }

/-- The state stW with a window of a single page, for exhaustion tests. -/
def stSmall : hvm_device := { stW with mmio_len := 4096 }

/-- Environment in which the second add-to-physmap request of a call is
rejected with status -1 while the first succeeds. -/
def envB : Env :=
  { envAll with addRc := fun a => if a.idx = 0 then 0 else -1 }

/-- Environment in which the extraversion query is rejected. -/
def envL : Env := { envAll with extraversion_rc := -1 }

/-- Environment in which the XenStore sanity read fails. -/
def envL2 : Env := { envAll with xenstore_read := some (Err.EXEN (-3)) }

/-- Environment in which the primary version query reports a negative
status word while the extraversion query succeeds. -/
def envC3 : Env := { envAll with xenver_version := -38 }

/-- Environment in which every add-to-physmap request is rejected with
hypervisor status -22. -/
def envC4 : Env := { envAll with addRc := fun _ => -22 }

/-- Environment in which the grant size query, the parameter reads and the
virtual mapping primitive all fail. -/
def envW4 : Env :=
  { envAll with querySize_rc := -7, getParam := fun _ => (-9, 0),
                ioremapFn := fun _ _ => none }

/-- Environment in which the set-version call succeeds but reports back
version 3. -/
def envV : Env := { envAll with setVersion := fun _ => (0, 3) }

/-- Environment in which no scanned CPUID leaf carries the signature. -/
def envNoSig : Env :=
  { envAll with cpuid := fun _ => { eax := 0, ebx := 0, ecx := 0, edx := 0 } }

/-- C1 (code bug): with two pages requested, the first add-to-physmap
succeeding and the second failing, the single rollback removal request
carries the indeterminate local value 999 as its frame number instead of
the frame number 0x100 that was added for index 0, so the page added for
index 0 is not removed from the physical address map; the virtual mapping
is released and the call returns failure. The claim requires each removal
to identify the frame number that was added for its index. -/
theorem c1_rollback_uses_uninitialized_gpfn :
    hvm_ioremap envB stW XENMAPSPACE_shared_info 2 =
      (none, stW,
        [Event.ioremapE 0x100000 8192 (some 0x100000),
         Event.addE { domid := DOMID_SELF, idx := 0,
                      space := XENMAPSPACE_shared_info, gpfn := 0x100 } 0,
         Event.addE { domid := DOMID_SELF, idx := 1,
                      space := XENMAPSPACE_shared_info, gpfn := 0x101 } (-1),
         Event.removeE { domid := DOMID_SELF, gpfn := 999 } 0,
         Event.iounmapE 0x100000]) ∧
    (999 : Nat) ≠ 0x100 :=
  ⟨rfl, by decide⟩

/-- C7: a request exceeding the remaining window length fails before any
other work: the result is NULL, the trace is empty so no virtual mapping
is attempted and no physmap request is issued, and the state with its
bump offset is unchanged. -/
theorem c7_out_of_space_first (env : Env) (st : hvm_device) (space pages : Nat)
    (hle : st.mmio_offset ≤ st.mmio_len)
    (h : pages * PAGE_SIZE > st.mmio_len - st.mmio_offset) :
    hvm_ioremap env st space pages = (none, st, []) := by
  have hgt : st.mmio_offset + pages * PAGE_SIZE > st.mmio_len := by
    obtain ⟨k, hk⟩ : ∃ k, pages * PAGE_SIZE = k := ⟨_, rfl⟩
    rw [hk] at h ⊢
    omega
  simp [hvm_ioremap, hgt]

/-- C7 witness: on a one-page window, a two-page request is refused with
an empty trace and unchanged state. -/
theorem c7_witness :
    stSmall.mmio_offset ≤ stSmall.mmio_len ∧
    2 * PAGE_SIZE > stSmall.mmio_len - stSmall.mmio_offset ∧
    hvm_ioremap envAll stSmall 0 2 = (none, stSmall, []) :=
  ⟨by decide, by decide,
    c7_out_of_space_first envAll stSmall 0 2 (by decide) (by decide)⟩

/-- C9: assuming the window invariant on entry, the allocator preserves
the window length, re-establishes offset at most length, never decreases
the offset, advances it by exactly the mapped byte length on success,
leaves the whole state unchanged on failure, and the release primitive
never modifies the state at all. -/
theorem c9_offset_invariant (env : Env) (st : hvm_device) (space pages : Nat)
    (hle : st.mmio_offset ≤ st.mmio_len) :
    (hvm_ioremap env st space pages).2.1.mmio_len = st.mmio_len ∧
    (hvm_ioremap env st space pages).2.1.mmio_offset ≤
      (hvm_ioremap env st space pages).2.1.mmio_len ∧
    st.mmio_offset ≤ (hvm_ioremap env st space pages).2.1.mmio_offset ∧
    (∀ p, (hvm_ioremap env st space pages).1 = some p →
      (hvm_ioremap env st space pages).2.1.mmio_offset =
        st.mmio_offset + pages * PAGE_SIZE) ∧
    ((hvm_ioremap env st space pages).1 = none →
      (hvm_ioremap env st space pages).2.1 = st) ∧
    (∀ mm pg, (hvm_iounmap env st mm pg).1 = st) := by
  obtain ⟨k, hk⟩ : ∃ k, pages * PAGE_SIZE = k := ⟨_, rfl⟩
  by_cases hc : st.mmio_offset + pages * PAGE_SIZE > st.mmio_len
  · simp [hvm_ioremap, hc, hvm_iounmap, hle]
  · rcases hio : env.ioremapFn (st.mmio + st.mmio_offset) (pages * PAGE_SIZE)
      with _ | mmio
    · simp [hvm_ioremap, hc, hio, hvm_iounmap, hle]
    · rcases hal : (hvm_add_loop env space (env.virt_to_phys mmio) 0 pages).2
        with _ | i
      · simp only [hvm_ioremap, hc, hio, hal, if_false, ite_false]
        rw [hk] at hc ⊢
        simp [hvm_iounmap]
        omega
      · simp [hvm_ioremap, hc, hio, hal, hvm_iounmap, hle]

/-- C9 witness: a successful one-page allocation in the all-success
environment keeps the invariant and advances the offset by one page. -/
theorem c9_witness :
    (hvm_ioremap envAll stW 0 1).2.1.mmio_offset ≤
      (hvm_ioremap envAll stW 0 1).2.1.mmio_len ∧
    (hvm_ioremap envAll stW 0 1).2.1.mmio_offset = stW.mmio_offset + 1 * PAGE_SIZE :=
  ⟨(c9_offset_invariant envAll stW 0 1 (by decide)).2.1,
    (c9_offset_invariant envAll stW 0 1 (by decide)).2.2.2.1 0x100000 rfl⟩

/-- The forward add loop never reads the wallclock oracle field. -/
lemma hvm_add_loop_wallclock (env : Env) (w space mp : Nat) :
    ∀ n i, hvm_add_loop { env with wallclock := w } space mp i n =
      hvm_add_loop env space mp i n := by
  intro n
  induction n with
  | zero => intro i; rfl
  | succ n ih => intro i; simp [hvm_add_loop, ih]

/-- The rollback loop never reads the wallclock oracle field. -/
lemma hvm_ioremap_rollback_wallclock (env : Env) (w : Nat) :
    ∀ n, hvm_ioremap_rollback { env with wallclock := w } n =
      hvm_ioremap_rollback env n := by
  intro n
  induction n with
  | zero => rfl
  | succ n ih => simp [hvm_ioremap_rollback, ih]

/-- The MMIO allocator never reads the wallclock oracle field. -/
lemma hvm_ioremap_wallclock (env : Env) (w : Nat) (st : hvm_device)
    (space pages : Nat) :
    hvm_ioremap { env with wallclock := w } st space pages =
      hvm_ioremap env st space pages := by
  simp [hvm_ioremap, hvm_add_loop_wallclock, hvm_ioremap_rollback_wallclock]

/-- C10: the shared info mapper succeeds exactly when its single-page
allocation succeeds, reporting ENOMEM for a NULL allocation and changing
nothing else of the outcome; the wallclock value read is recorded in the
trace only and never affects the result. -/
theorem c10_shared_info (env : Env) (st : hvm_device) :
    (match hvm_ioremap env st XENMAPSPACE_shared_info 1 with
      | (none, st1, tr) =>
        hvm_map_shared_info env st = (Except.error Err.ENOMEM, st1, tr)
      | (some p, st1, tr) =>
        hvm_map_shared_info env st =
          (Except.ok (), { st1 with xen := { st1.xen with shared := p } },
            tr ++ [Event.readWallclock env.wallclock])) ∧
    (∀ w₁ w₂ : Nat,
      (hvm_map_shared_info { env with wallclock := w₁ } st).1 =
      (hvm_map_shared_info { env with wallclock := w₂ } st).1) := by
  constructor
  · rcases hio : hvm_ioremap env st XENMAPSPACE_shared_info 1 with ⟨r, st1, tr⟩
    cases r <;> simp [hvm_map_shared_info, hio]
  · intro w₁ w₂
    rcases hio : hvm_ioremap env st XENMAPSPACE_shared_info 1 with ⟨r, st1, tr⟩
    have h1 : hvm_ioremap { env with wallclock := w₁ } st XENMAPSPACE_shared_info 1
        = (r, st1, tr) := by rw [hvm_ioremap_wallclock, hio]
    have h2 : hvm_ioremap { env with wallclock := w₂ } st XENMAPSPACE_shared_info 1
        = (r, st1, tr) := by rw [hvm_ioremap_wallclock, hio]
    cases r <;> simp [hvm_map_shared_info, h1, h2]

/-- C5: when the size query succeeds, the set-version call returns status
zero but the hypervisor reports back a version other than 2, the grant
mapper fails with ENOTTY, the state is unchanged and the trace shows that
the MMIO allocator was never invoked. -/
theorem c5_version_strictness (env : Env) (st : hvm_device) (v : Nat)
    (hq : env.querySize_rc = 0) (hsv : env.setVersion 2 = (0, v)) (hv : v ≠ 2) :
    hvm_map_grant env st =
      (Except.error Err.ENOTTY, st,
        [Event.querySizeE 0, Event.setVersionE 2 0 v]) := by
  simp [hvm_map_grant, hq, hsv, hv]

/-- C5 witness: a hypervisor accepting the set-version call but reporting
version 3 makes the grant mapper fail with ENOTTY and map nothing. -/
theorem c5_witness :
    envV.querySize_rc = 0 ∧ envV.setVersion 2 = (0, 3) ∧
    hvm_map_grant envV stW =
      (Except.error Err.ENOTTY, stW,
        [Event.querySizeE 0, Event.setVersionE 2 0 3]) :=
  ⟨rfl, rfl, c5_version_strictness envV stW 3 rfl rfl (by decide)⟩

/-- C3 counterexample: with the allocation in place and the extraversion
query succeeding, the install succeeds even though the primary version
query reported a negative status word, so a failure of the primary query
does not cause the install to fail: its result is never examined. -/
theorem c3_cex :
    (hvm_map_hypercall envC3 stW).1 = Except.ok () ∧
    envC3.xenver_version < 0 :=
  ⟨rfl, by decide⟩

/-- C3 amended: after the MSR write the transport issues the primary
version query and the extraversion query, in that order, but only the
extraversion status is checked: given a successful allocation, install
succeeds exactly when the extraversion status is zero, and a nonzero
status is returned wrapped as EXEN; the primary query result is recorded
for diagnostics only. -/
theorem c3_amended (env : Env) (st : hvm_device) (p : Nat)
    (hm : env.malloc_dma
      ((env.cpuid (st.cpuid_base + HVM_CPUID_PAGES)).eax * PAGE_SIZE) PAGE_SIZE
      = some p) :
    ((hvm_map_hypercall env st).1 = Except.ok () ↔ env.extraversion_rc = 0) ∧
    (env.extraversion_rc ≠ 0 →
      (hvm_map_hypercall env st).1 = Except.error (Err.EXEN env.extraversion_rc)) ∧
    (hvm_map_hypercall env st).2.2 =
      [Event.mallocDma
        ((env.cpuid (st.cpuid_base + HVM_CPUID_PAGES)).eax * PAGE_SIZE) (some p),
       Event.wrmsrE (env.cpuid (st.cpuid_base + HVM_CPUID_PAGES)).ebx
         (env.virt_to_phys p),
       Event.versionQ env.xenver_version,
       Event.extraversionQ env.extraversion_rc] := by
  by_cases hrc : env.extraversion_rc = 0 <;>
    simp [hvm_map_hypercall, hm, hrc]

/-- C3 amended witness: in the all-success environment the install
succeeds. -/
theorem c3_amended_witness :
    (hvm_map_hypercall envAll stW).1 = Except.ok () :=
  (c3_amended envAll stW 0x2000 rfl).1.mpr rfl

/-- C4 counterexample: an add-to-physmap rejection with hypervisor status
-22 inside the MMIO allocator is reported by the shared-info mapper as the
generic ENOMEM, not as a wrapped hypervisor status, so a caller of the
allocator does replace the error kind. -/
theorem c4_cex :
    (hvm_map_shared_info envC4 stW).1 = Except.error Err.ENOMEM ∧
    envC4.addRc { domid := DOMID_SELF, idx := 0,
                  space := XENMAPSPACE_shared_info, gpfn := 0x100 } = -22 :=
  ⟨rfl, rfl⟩

/-- Environment in which the extraversion query is rejected with
hypervisor status -5 while the allocation succeeds. -/
def envW4b : Env := { envAll with extraversion_rc := -5 }

/-- Environment in which the size query and version negotiation succeed
but the virtual mapping primitive always fails. -/
def envW4c : Env := { envAll with ioremapFn := fun _ _ => none }

/-- C4 amended: operations that receive a hypervisor status directly wrap
it unchanged as EXEN: the grant size query, the XenStore parameter read,
and the extraversion check of the transport install; but hvm_ioremap
collapses every failure cause into a NULL return, and its callers then
report fixed generic codes regardless of why the allocator failed, ENOMEM
from the shared-info mapper and ENODEV from the grant mapper. -/
theorem c4_amended (env : Env) (st : hvm_device) :
    (env.querySize_rc ≠ 0 →
      (hvm_map_grant env st).1 = Except.error (Err.EXEN env.querySize_rc)) ∧
    ((env.getParam HVM_PARAM_STORE_EVTCHN).1 ≠ 0 →
      (hvm_map_xenstore env st).1 =
        Except.error (Err.EXEN (env.getParam HVM_PARAM_STORE_EVTCHN).1)) ∧
    (∀ p, env.malloc_dma
        ((env.cpuid (st.cpuid_base + HVM_CPUID_PAGES)).eax * PAGE_SIZE)
        PAGE_SIZE = some p →
      env.extraversion_rc ≠ 0 →
      (hvm_map_hypercall env st).1 =
        Except.error (Err.EXEN env.extraversion_rc)) ∧
    ((hvm_ioremap env st XENMAPSPACE_shared_info 1).1 = none →
      (hvm_map_shared_info env st).1 = Except.error Err.ENOMEM) ∧
    (env.querySize_rc = 0 → (env.setVersion 2).1 = 0 →
      (env.setVersion 2).2 = 2 →
      (hvm_ioremap env st XENMAPSPACE_grant_table env.querySize_frames).1
        = none →
      (hvm_map_grant env st).1 = Except.error Err.ENODEV) := by
  refine ⟨fun h => by simp [hvm_map_grant, h],
          fun h => by simp [hvm_map_xenstore, h],
          fun p hm hrc => by simp [hvm_map_hypercall, hm, hrc],
          fun h => ?_, fun hq h1 h2 h => ?_⟩
  · rcases hio : hvm_ioremap env st XENMAPSPACE_shared_info 1 with ⟨r, st1, tr⟩
    rw [hio] at h
    cases r with
    | none => simp [hvm_map_shared_info, hio]
    | some p => exact absurd h (by simp)
  · rcases hio : hvm_ioremap env st XENMAPSPACE_grant_table
        env.querySize_frames with ⟨r, st1, tr⟩
    rw [hio] at h
    cases r with
    | none => simp [hvm_map_grant, hq, h1, h2, hio]
    | some p => exact absurd h (by simp)

/-- C4 amended witness: the size query failing with -7 is wrapped as
EXEN -7, the parameter read failing with -9 as EXEN -9, the extraversion
check failing with -5 as EXEN -5, and a failing mapping primitive is
reported as ENOMEM by the shared-info mapper and ENODEV by the grant
mapper. -/
theorem c4_amended_witness :
    (hvm_map_grant envW4 stW).1 = Except.error (Err.EXEN (-7)) ∧
    (hvm_map_xenstore envW4 stW).1 = Except.error (Err.EXEN (-9)) ∧
    (hvm_map_shared_info envW4 stW).1 = Except.error Err.ENOMEM ∧
    (hvm_map_hypercall envW4b stW).1 = Except.error (Err.EXEN (-5)) ∧
    (hvm_map_grant envW4c stW).1 = Except.error Err.ENODEV := by
  obtain ⟨a, b, -, c, -⟩ := c4_amended envW4 stW
  obtain ⟨-, -, d, -, -⟩ := c4_amended envW4b stW
  obtain ⟨-, -, -, -, e⟩ := c4_amended envW4c stW
  exact ⟨a (by decide), b (by decide), c rfl, d 0x2000 rfl (by decide),
         e rfl rfl rfl rfl⟩

/-- Scan loop characterization, first-match case: with the fuel reaching
exactly the end of the range, the loop returns the i-th candidate when it
matches and no earlier candidate does. -/
lemma hvm_scan_found (env : Env) :
    ∀ fuel base i,
      base + fuel * HVM_CPUID_STEP = HVM_CPUID_MAX + HVM_CPUID_STEP →
      i < fuel →
      cpuidSig env (base + i * HVM_CPUID_STEP) = HVM_CPUID_MAGIC →
      (∀ j, j < i → cpuidSig env (base + j * HVM_CPUID_STEP) ≠ HVM_CPUID_MAGIC) →
      hvm_scan env base fuel = some (base + i * HVM_CPUID_STEP) := by
  intro fuel
  induction fuel with
  | zero =>
    intro base i _ hi _ _
    exact absurd hi (Nat.not_lt_zero i)
  | succ n ih =>
    intro base i hend hi hsig hfirst
    have hble : ¬ base > HVM_CPUID_MAX := by
      simp only [HVM_CPUID_STEP, HVM_CPUID_MAX] at hend ⊢
      omega
    cases i with
    | zero =>
      have hs : cpuidSig env base = HVM_CPUID_MAGIC := by simpa using hsig
      simp [hvm_scan, hble, hs]
    | succ i =>
      have h0 : ¬ cpuidSig env base = HVM_CPUID_MAGIC := by
        have := hfirst 0 (Nat.succ_pos i)
        simpa using this
      have harith : base + HVM_CPUID_STEP + i * HVM_CPUID_STEP =
          base + (i + 1) * HVM_CPUID_STEP := by ring
      have hrec := ih (base + HVM_CPUID_STEP) i
        (by simp only [HVM_CPUID_STEP, HVM_CPUID_MAX] at hend ⊢; omega)
        (Nat.lt_of_succ_lt_succ hi)
        (by rw [harith]; exact hsig)
        (by
          intro j hj
          have hj1 := hfirst (j + 1) (Nat.succ_lt_succ hj)
          have : base + HVM_CPUID_STEP + j * HVM_CPUID_STEP =
              base + (j + 1) * HVM_CPUID_STEP := by ring
          rw [this]
          exact hj1)
      simp only [hvm_scan, hble, if_false, h0, ite_false]
      rw [hrec, harith]

/-- Scan loop characterization, no-match case. -/
lemma hvm_scan_none (env : Env) :
    ∀ fuel base,
      base + fuel * HVM_CPUID_STEP = HVM_CPUID_MAX + HVM_CPUID_STEP →
      (∀ i, i < fuel → cpuidSig env (base + i * HVM_CPUID_STEP) ≠ HVM_CPUID_MAGIC) →
      hvm_scan env base fuel = none := by
  intro fuel
  induction fuel with
  | zero => intro base _ _; rfl
  | succ n ih =>
    intro base hend hno
    have hble : ¬ base > HVM_CPUID_MAX := by
      simp only [HVM_CPUID_STEP, HVM_CPUID_MAX] at hend ⊢
      omega
    have h0 : ¬ cpuidSig env base = HVM_CPUID_MAGIC := by
      have := hno 0 (Nat.succ_pos n)
      simpa using this
    have hrec := ih (base + HVM_CPUID_STEP)
      (by simp only [HVM_CPUID_STEP, HVM_CPUID_MAX] at hend ⊢; omega)
      (by
        intro j hj
        have hj1 := hno (j + 1) (Nat.succ_lt_succ hj)
        have : base + HVM_CPUID_STEP + j * HVM_CPUID_STEP =
            base + (j + 1) * HVM_CPUID_STEP := by ring
        rw [this]
        exact hj1)
    simp only [hvm_scan, hble, if_false, h0, ite_false]
    exact hrec

/-- C8: the locator visits the candidate leaves of the fixed range in
order and returns the first whose three signature registers match the
magic constant byte for byte; when no candidate matches it returns the
not-found result, and in that case the attach aborts immediately: the raw
trace is empty, so no transport install and no mapping was attempted, and
the orchestrator trace records only the failed locate. -/
theorem c8_locator_scan (env : Env) (m l : Nat) :
    (∀ i, i < HVM_NR_LEAVES → cpuidSig env (hvmLeaf i) = HVM_CPUID_MAGIC →
      (∀ j, j < i → cpuidSig env (hvmLeaf j) ≠ HVM_CPUID_MAGIC) →
      hvm_cpuid_base env = some (hvmLeaf i)) ∧
    ((∀ i, i < HVM_NR_LEAVES → cpuidSig env (hvmLeaf i) ≠ HVM_CPUID_MAGIC) →
      hvm_cpuid_base env = none) ∧
    (hvm_cpuid_base env = none →
      hvm_probe env m l =
        if env.zalloc_ok then
          (Except.error Err.ENODEV, ([], [OrchEvent.locate false]))
        else (Except.error Err.ENOMEM, ([], []))) := by
  refine ⟨?_, ?_, ?_⟩
  · intro i hi hsig hfirst
    exact hvm_scan_found env HVM_NR_LEAVES HVM_CPUID_MIN i (by decide) hi hsig hfirst
  · intro h
    exact hvm_scan_none env HVM_NR_LEAVES HVM_CPUID_MIN (by decide) h
  · intro h
    cases hz : env.zalloc_ok <;> simp [hvm_probe, h, hz]

/-- C8 witness: with no signature anywhere, the locator reports not found
and the attach aborts with an empty raw trace. -/
theorem c8_witness :
    hvm_cpuid_base envNoSig = none ∧
    hvm_probe envNoSig 0x100000 0x10000 =
      (Except.error Err.ENODEV, ([], [OrchEvent.locate false])) := by
  have h := c8_locator_scan envNoSig 0x100000 0x10000
  have hn : hvm_cpuid_base envNoSig = none := h.2.1 (by decide)
  refine ⟨hn, ?_⟩
  rw [h.2.2 hn]
  rfl

/-- C6: teardown is in strict reverse order of acquisition. On any failed
attach the stages released are exactly the successfully acquired stages,
newest first; on a successful attach nothing is released, all five stages
are acquired in dependency order, and the detach releases them in exactly
the reverse order. -/
theorem c6_reverse_teardown (env : Env) (m l : Nat) :
    match hvm_probe env m l with
    | (Except.error _, _, orch) => releasesOf orch = (okAcquires orch).reverse
    | (Except.ok hvmO, _, orch) =>
        releasesOf orch = [] ∧
        okAcquires orch = [Stage.transport, Stage.sharedInfo, Stage.grantTable,
                           Stage.xenstore, Stage.bus] ∧
        releasesOf (hvm_remove env hvmO).2 = (okAcquires orch).reverse := by
  cases hz : env.zalloc_ok
  · simp [hvm_probe, hz, releasesOf, okAcquires]
  · rcases hb : hvm_cpuid_base env with _ | base
    · simp [hvm_probe, hz, hb, releasesOf, okAcquires]
    · rcases h1 : hvm_map_hypercall env (hvm_init m l base) with ⟨r1, hvm2, t1⟩
      cases r1 with
      | error e1 => simp [hvm_probe, hz, hb, h1, releasesOf, okAcquires]
      | ok u1 =>
        rcases h2 : hvm_map_shared_info env hvm2 with ⟨r2, hvm3, t2⟩
        cases r2 with
        | error e2 => simp [hvm_probe, hz, hb, h1, h2, releasesOf, okAcquires]
        | ok u2 =>
          rcases h3 : hvm_map_grant env hvm3 with ⟨r3, hvm4, t3⟩
          cases r3 with
          | error e3 => simp [hvm_probe, hz, hb, h1, h2, h3, releasesOf, okAcquires]
          | ok u3 =>
            rcases h4 : hvm_map_xenstore env hvm4 with ⟨r4, hvm5, t4⟩
            cases r4 with
            | error e4 =>
              simp [hvm_probe, hz, hb, h1, h2, h3, h4, releasesOf, okAcquires]
            | ok u4 =>
              rcases hx : env.xenbus_probe_rc with _ | ex
              · simp [hvm_probe, hz, hb, h1, h2, h3, h4, hx, releasesOf,
                      okAcquires, hvm_remove]
              · simp [hvm_probe, hz, hb, h1, h2, h3, h4, hx, releasesOf,
                      okAcquires]

/-- Balance of a cons cell. -/
lemma dmaBalance_cons (e : Event) (tl : List Event) :
    dmaBalance (e :: tl) = dmaDelta e + dmaBalance tl := by
  simp [dmaBalance]

/-- Balance of a cons cell. -/
lemma mapBalance_cons (e : Event) (tl : List Event) :
    mapBalance (e :: tl) = mapDelta e + mapBalance tl := by
  simp [mapBalance]

/-- Balance of the empty trace. -/
lemma dmaBalance_nil : dmaBalance [] = 0 := rfl

/-- Balance of the empty trace. -/
lemma mapBalance_nil : mapBalance [] = 0 := rfl

/-- The forward add loop contributes nothing to either balance. -/
lemma bal_hvm_add_loop (env : Env) (space mp : Nat) :
    ∀ n i, dmaBalance (hvm_add_loop env space mp i n).1 = 0 ∧
      mapBalance (hvm_add_loop env space mp i n).1 = 0 := by
  intro n
  induction n with
  | zero => intro i; simp [hvm_add_loop, dmaBalance_nil, mapBalance_nil]
  | succ n ih =>
    intro i
    simp only [hvm_add_loop]
    split
    · simp [dmaBalance_cons, mapBalance_cons, dmaBalance_nil, mapBalance_nil,
            dmaDelta, mapDelta]
    · simp [dmaBalance_cons, mapBalance_cons, dmaDelta, mapDelta, ih (i + 1)]

/-- The rollback loop contributes nothing to either balance. -/
lemma bal_hvm_ioremap_rollback (env : Env) :
    ∀ n, dmaBalance (hvm_ioremap_rollback env n) = 0 ∧
      mapBalance (hvm_ioremap_rollback env n) = 0 := by
  intro n
  induction n with
  | zero => simp [hvm_ioremap_rollback, dmaBalance_nil, mapBalance_nil]
  | succ n ih =>
    simp [hvm_ioremap_rollback, dmaBalance_cons, mapBalance_cons,
          dmaDelta, mapDelta, ih]

/-- The removal loop of hvm_iounmap contributes nothing to either balance. -/
lemma bal_hvm_iounmap_loop (env : Env) (mp : Nat) :
    ∀ n i, dmaBalance (hvm_iounmap_loop env mp i n) = 0 ∧
      mapBalance (hvm_iounmap_loop env mp i n) = 0 := by
  intro n
  induction n with
  | zero => intro i; simp [hvm_iounmap_loop, dmaBalance_nil, mapBalance_nil]
  | succ n ih =>
    intro i
    simp [hvm_iounmap_loop, dmaBalance_cons, mapBalance_cons,
          dmaDelta, mapDelta, ih (i + 1)]

/-- Balance of one allocator call: no DMA events, and one held mapping
exactly when the call succeeded. -/
lemma bal_hvm_ioremap (env : Env) (st : hvm_device) (space pages : Nat) :
    dmaBalance (hvm_ioremap env st space pages).2.2 = 0 ∧
    mapBalance (hvm_ioremap env st space pages).2.2 =
      (match (hvm_ioremap env st space pages).1 with
        | some _ => 1
        | none => 0) := by
  by_cases hc : st.mmio_offset + pages * PAGE_SIZE > st.mmio_len
  · simp [hvm_ioremap, hc, dmaBalance_nil, mapBalance_nil]
  · rcases hio : env.ioremapFn (st.mmio + st.mmio_offset) (pages * PAGE_SIZE)
      with _ | mmio
    · simp [hvm_ioremap, hc, hio, dmaBalance_cons, mapBalance_cons,
            dmaBalance_nil, mapBalance_nil, dmaDelta, mapDelta]
    · rcases hal : (hvm_add_loop env space (env.virt_to_phys mmio) 0 pages).2
        with _ | i
      · have hb := bal_hvm_add_loop env space (env.virt_to_phys mmio) pages 0
        simp [hvm_ioremap, hc, hio, hal, dmaBalance_cons, mapBalance_cons,
              dmaDelta, mapDelta, hb.1, hb.2]
      · have hb := bal_hvm_add_loop env space (env.virt_to_phys mmio) pages 0
        have hr := bal_hvm_ioremap_rollback env i
        simp [hvm_ioremap, hc, hio, hal, dmaBalance_cons, mapBalance_cons,
              dmaBalance_append, mapBalance_append, dmaBalance_nil,
              mapBalance_nil, dmaDelta, mapDelta, hb.1, hb.2, hr.1, hr.2]

/-- Balance of one release call: no DMA events, net one mapping released. -/
lemma bal_hvm_iounmap (env : Env) (st : hvm_device) (mm pg : Nat) :
    dmaBalance (hvm_iounmap env st mm pg).2 = 0 ∧
    mapBalance (hvm_iounmap env st mm pg).2 = -1 := by
  have hl := bal_hvm_iounmap_loop env (env.virt_to_phys mm) pg 0
  simp [hvm_iounmap, dmaBalance_cons, mapBalance_cons, dmaDelta, mapDelta,
        hl.1, hl.2]

/-- Balance of the transport install: no mapping events; one DMA region is
held on success, and on failure none is held unless the extraversion
check failed, in which case the allocation leaks. -/
lemma bal_hvm_map_hypercall (env : Env) (hvm : hvm_device) :
    mapBalance (hvm_map_hypercall env hvm).2.2 = 0 ∧
    ((hvm_map_hypercall env hvm).1 = Except.ok () →
      dmaBalance (hvm_map_hypercall env hvm).2.2 = 1) ∧
    (∀ e, (hvm_map_hypercall env hvm).1 = Except.error e →
      dmaBalance (hvm_map_hypercall env hvm).2.2 = 0 ∨
      (dmaBalance (hvm_map_hypercall env hvm).2.2 = 1 ∧
        env.extraversion_rc ≠ 0)) := by
  rcases hm : env.malloc_dma
      ((env.cpuid (hvm.cpuid_base + HVM_CPUID_PAGES)).eax * PAGE_SIZE) PAGE_SIZE
    with _ | ptr
  · simp [hvm_map_hypercall, hm, dmaBalance_cons, mapBalance_cons,
          dmaBalance_nil, mapBalance_nil, dmaDelta, mapDelta]
  · by_cases hrc : env.extraversion_rc = 0 <;>
      simp [hvm_map_hypercall, hm, hrc, dmaBalance_cons, mapBalance_cons,
            dmaBalance_nil, mapBalance_nil, dmaDelta, mapDelta]

/-- Balance of the shared-info mapper: no DMA events; one mapping held on
success and none on failure. -/
lemma bal_hvm_map_shared_info (env : Env) (hvm : hvm_device) :
    dmaBalance (hvm_map_shared_info env hvm).2.2 = 0 ∧
    ((hvm_map_shared_info env hvm).1 = Except.ok () →
      mapBalance (hvm_map_shared_info env hvm).2.2 = 1) ∧
    (∀ e, (hvm_map_shared_info env hvm).1 = Except.error e →
      mapBalance (hvm_map_shared_info env hvm).2.2 = 0) := by
  have hb := bal_hvm_ioremap env hvm XENMAPSPACE_shared_info 1
  rcases hio : hvm_ioremap env hvm XENMAPSPACE_shared_info 1 with ⟨r, st1, tr⟩
  rw [hio] at hb
  cases r with
  | none => simpa [hvm_map_shared_info, hio] using hb
  | some p =>
    simp only at hb
    simp [hvm_map_shared_info, hio, dmaBalance_append, mapBalance_append,
          dmaBalance_cons, mapBalance_cons, dmaBalance_nil, mapBalance_nil,
          dmaDelta, mapDelta, hb.1, hb.2]

/-- Balance of the grant mapper: no DMA events; one mapping held on
success and none on failure. -/
lemma bal_hvm_map_grant (env : Env) (hvm : hvm_device) :
    dmaBalance (hvm_map_grant env hvm).2.2 = 0 ∧
    ((hvm_map_grant env hvm).1 = Except.ok () →
      mapBalance (hvm_map_grant env hvm).2.2 = 1) ∧
    (∀ e, (hvm_map_grant env hvm).1 = Except.error e →
      mapBalance (hvm_map_grant env hvm).2.2 = 0) := by
  by_cases hq : env.querySize_rc = 0
  · by_cases h1 : (env.setVersion 2).1 = 0
    · by_cases h2 : (env.setVersion 2).2 = 2
      · have hb := bal_hvm_ioremap env hvm XENMAPSPACE_grant_table
          env.querySize_frames
        rcases hio : hvm_ioremap env hvm XENMAPSPACE_grant_table
            env.querySize_frames with ⟨r, st1, tr⟩
        rw [hio] at hb
        cases r with
        | none =>
          simp only at hb
          simp [hvm_map_grant, hq, h1, h2, hio, dmaBalance_cons,
                mapBalance_cons, dmaDelta, mapDelta, hb.1, hb.2]
        | some p =>
          simp only at hb
          simp [hvm_map_grant, hq, h1, h2, hio, dmaBalance_cons,
                mapBalance_cons, dmaDelta, mapDelta, hb.1, hb.2]
      · simp [hvm_map_grant, hq, h1, h2, dmaBalance_cons, mapBalance_cons,
              dmaBalance_nil, mapBalance_nil, dmaDelta, mapDelta]
    · simp [hvm_map_grant, hq, h1, dmaBalance_cons, mapBalance_cons,
            dmaBalance_nil, mapBalance_nil, dmaDelta, mapDelta]
  · simp [hvm_map_grant, hq, dmaBalance_cons, mapBalance_cons,
          dmaBalance_nil, mapBalance_nil, dmaDelta, mapDelta]

/-- Balance of the XenStore mapper: no DMA events; one mapping held on
success; on failure none is held unless the sanity read failed after a
successful mapping, in which case the mapping leaks. -/
lemma bal_hvm_map_xenstore (env : Env) (hvm : hvm_device) :
    dmaBalance (hvm_map_xenstore env hvm).2.2 = 0 ∧
    ((hvm_map_xenstore env hvm).1 = Except.ok () →
      mapBalance (hvm_map_xenstore env hvm).2.2 = 1) ∧
    (∀ e, (hvm_map_xenstore env hvm).1 = Except.error e →
      mapBalance (hvm_map_xenstore env hvm).2.2 = 0 ∨
      (mapBalance (hvm_map_xenstore env hvm).2.2 = 1 ∧
        env.xenstore_read ≠ none)) := by
  by_cases h1 : (env.getParam HVM_PARAM_STORE_EVTCHN).1 = 0
  · by_cases h2 : (env.getParam HVM_PARAM_STORE_PFN).1 = 0
    · rcases hio : env.ioremapFn ((env.getParam HVM_PARAM_STORE_PFN).2 * PAGE_SIZE)
          PAGE_SIZE with _ | intf
      · simp [hvm_map_xenstore, h1, h2, hio, dmaBalance_cons, mapBalance_cons,
              dmaBalance_nil, mapBalance_nil, dmaDelta, mapDelta]
      · rcases hr : env.xenstore_read with _ | e
        · simp [hvm_map_xenstore, h1, h2, hio, hr, dmaBalance_cons,
                mapBalance_cons, dmaBalance_nil, mapBalance_nil, dmaDelta,
                mapDelta]
        · simp [hvm_map_xenstore, h1, h2, hio, hr, dmaBalance_cons,
                mapBalance_cons, dmaBalance_nil, mapBalance_nil, dmaDelta,
                mapDelta]
    · simp [hvm_map_xenstore, h1, h2, dmaBalance_cons, mapBalance_cons,
            dmaBalance_nil, mapBalance_nil, dmaDelta, mapDelta]
  · simp [hvm_map_xenstore, h1, dmaBalance_cons, mapBalance_cons,
          dmaBalance_nil, mapBalance_nil, dmaDelta, mapDelta]

/-- Balance of the transport uninstall. -/
lemma bal_hvm_unmap_hypercall (env : Env) (st : hvm_device) :
    dmaBalance (hvm_unmap_hypercall env st).2 = -1 ∧
    mapBalance (hvm_unmap_hypercall env st).2 = 0 := by
  simp [hvm_unmap_hypercall, dmaBalance_cons, mapBalance_cons,
        dmaBalance_nil, mapBalance_nil, dmaDelta, mapDelta]

/-- Balance of the shared-info release. -/
lemma bal_hvm_unmap_shared_info (env : Env) (st : hvm_device) :
    dmaBalance (hvm_unmap_shared_info env st).2 = 0 ∧
    mapBalance (hvm_unmap_shared_info env st).2 = -1 :=
  bal_hvm_iounmap env st st.xen.shared 1

/-- Balance of the grant-table release. -/
lemma bal_hvm_unmap_grant (env : Env) (st : hvm_device) :
    dmaBalance (hvm_unmap_grant env st).2 = 0 ∧
    mapBalance (hvm_unmap_grant env st).2 = -1 :=
  bal_hvm_iounmap env st st.xen.grant.table
    (st.xen.grant.count * GRANT_ENTRY_V2_SIZE / PAGE_SIZE)

/-- Balance of the XenStore release. -/
lemma bal_hvm_unmap_xenstore (env : Env) (st : hvm_device) :
    dmaBalance (hvm_unmap_xenstore env st).2 = 0 ∧
    mapBalance (hvm_unmap_xenstore env st).2 = -1 := by
  simp [hvm_unmap_xenstore, dmaBalance_cons, mapBalance_cons,
        dmaBalance_nil, mapBalance_nil, dmaDelta, mapDelta]

/-- State of hvm_iounmap and the unmap wrappers is passed through. -/
lemma hvm_unmap_state (env : Env) (st : hvm_device) :
    (hvm_unmap_xenstore env st).1 = st ∧ (hvm_unmap_grant env st).1 = st ∧
    (hvm_unmap_shared_info env st).1 = st ∧
    (hvm_unmap_hypercall env st).1 = st :=
  ⟨rfl, rfl, rfl, rfl⟩

/-- C2 counterexample: a failed extraversion check after the MSR write
leaves the hypercall DMA allocation held when hvm_probe returns the
error, and a failed XenStore sanity read leaves the XenStore mapping
held, so a resource does remain held after hvm_probe returns an error. -/
theorem c2_cex :
    (hvm_probe envL 0x100000 0x10000).1 = Except.error (Err.EXEN (-1)) ∧
    dmaBalance (hvm_probe envL 0x100000 0x10000).2.1 = 1 ∧
    (hvm_probe envL2 0x100000 0x10000).1 = Except.error (Err.EXEN (-3)) ∧
    mapBalance (hvm_probe envL2 0x100000 0x10000).2.1 = 1 :=
  ⟨rfl, by decide, rfl, by decide⟩

/-- C2 amended: after hvm_probe returns an error no DMA allocation and no
mapping of the attach remains held, except in exactly two cases: the
hypercall page allocation leaks when the extraversion verification
failed, and the XenStore mapping leaks when the sanity read failed; after
a successful attach followed by the detach of hvm_remove, every DMA
allocation and every mapping has been released. -/
theorem c2_amended (env : Env) (m l : Nat) :
    match hvm_probe env m l with
    | (Except.error _, raw, _) =>
        (dmaBalance raw = 0 ∨
          (dmaBalance raw = 1 ∧ env.extraversion_rc ≠ 0)) ∧
        (mapBalance raw = 0 ∨
          (mapBalance raw = 1 ∧ env.xenstore_read ≠ none))
    | (Except.ok hvmO, raw, _) =>
        dmaBalance (raw ++ (hvm_remove env hvmO).1) = 0 ∧
        mapBalance (raw ++ (hvm_remove env hvmO).1) = 0 := by
  cases hz : env.zalloc_ok
  · simp [hvm_probe, hz, dmaBalance_nil, mapBalance_nil]
  · rcases hb : hvm_cpuid_base env with _ | base
    · simp [hvm_probe, hz, hb, dmaBalance_nil, mapBalance_nil]
    · rcases h1 : hvm_map_hypercall env (hvm_init m l base) with ⟨r1, hvm2, t1⟩
      have b1 := bal_hvm_map_hypercall env (hvm_init m l base)
      rw [h1] at b1
      simp only at b1
      cases r1 with
      | error e1 =>
        simp only [hvm_probe, hz, hb, h1, if_true]
        exact ⟨b1.2.2 e1 rfl, Or.inl b1.1⟩
      | ok u1 =>
        have hd1 : dmaBalance t1 = 1 := b1.2.1 rfl
        have hm1 : mapBalance t1 = 0 := b1.1
        rcases h2 : hvm_map_shared_info env hvm2 with ⟨r2, hvm3, t2⟩
        have b2 := bal_hvm_map_shared_info env hvm2
        rw [h2] at b2
        simp only at b2
        cases r2 with
        | error e2 =>
          have bu := bal_hvm_unmap_hypercall env hvm3
          simp only [hvm_probe, hz, hb, h1, h2, if_true]
          constructor
          · left
            rw [dmaBalance_append, dmaBalance_append, hd1, b2.1, bu.1]
            ring
          · left
            rw [mapBalance_append, mapBalance_append, hm1, b2.2.2 e2 rfl, bu.2]
            ring
        | ok u2 =>
          have hm2 : mapBalance t2 = 1 := b2.2.1 rfl
          have hd2 : dmaBalance t2 = 0 := b2.1
          rcases h3 : hvm_map_grant env hvm3 with ⟨r3, hvm4, t3⟩
          have b3 := bal_hvm_map_grant env hvm3
          rw [h3] at b3
          simp only at b3
          cases r3 with
          | error e3 =>
            have bu1 := bal_hvm_unmap_shared_info env hvm4
            have bu2 := bal_hvm_unmap_hypercall env
              (hvm_unmap_shared_info env hvm4).1
            simp only [hvm_probe, hz, hb, h1, h2, h3, if_true]
            constructor
            · left
              rw [dmaBalance_append, dmaBalance_append, dmaBalance_append,
                  dmaBalance_append, hd1, hd2, b3.1, bu1.1, bu2.1]
              ring
            · left
              rw [mapBalance_append, mapBalance_append, mapBalance_append,
                  mapBalance_append, hm1, hm2, b3.2.2 e3 rfl, bu1.2, bu2.2]
              ring
          | ok u3 =>
            have hm3 : mapBalance t3 = 1 := b3.2.1 rfl
            have hd3 : dmaBalance t3 = 0 := b3.1
            rcases h4 : hvm_map_xenstore env hvm4 with ⟨r4, hvm5, t4⟩
            have b4 := bal_hvm_map_xenstore env hvm4
            rw [h4] at b4
            simp only at b4
            cases r4 with
            | error e4 =>
              have bu1 := bal_hvm_unmap_grant env hvm5
              have bu2 := bal_hvm_unmap_shared_info env
                (hvm_unmap_grant env hvm5).1
              have bu3 := bal_hvm_unmap_hypercall env
                (hvm_unmap_shared_info env (hvm_unmap_grant env hvm5).1).1
              simp only [hvm_probe, hz, hb, h1, h2, h3, h4, if_true]
              constructor
              · left
                rw [dmaBalance_append, dmaBalance_append, dmaBalance_append,
                    dmaBalance_append, dmaBalance_append, dmaBalance_append,
                    hd1, hd2, hd3, b4.1, bu1.1, bu2.1, bu3.1]
                ring
              · rcases b4.2.2 e4 rfl with hx | ⟨hx, hxr⟩
                · left
                  rw [mapBalance_append, mapBalance_append, mapBalance_append,
                      mapBalance_append, mapBalance_append, mapBalance_append,
                      hm1, hm2, hm3, hx, bu1.2, bu2.2, bu3.2]
                  ring
                · right
                  refine ⟨?_, hxr⟩
                  rw [mapBalance_append, mapBalance_append, mapBalance_append,
                      mapBalance_append, mapBalance_append, mapBalance_append,
                      hm1, hm2, hm3, hx, bu1.2, bu2.2, bu3.2]
                  ring
            | ok u4 =>
              have hm4 : mapBalance t4 = 1 := b4.2.1 rfl
              have hd4 : dmaBalance t4 = 0 := b4.1
              rcases hx : env.xenbus_probe_rc with _ | ex
              · have bu1 := bal_hvm_unmap_xenstore env hvm5
                have bu2 := bal_hvm_unmap_grant env
                  (hvm_unmap_xenstore env hvm5).1
                have bu3 := bal_hvm_unmap_shared_info env
                  (hvm_unmap_grant env (hvm_unmap_xenstore env hvm5).1).1
                have bu4 := bal_hvm_unmap_hypercall env
                  (hvm_unmap_shared_info env
                    (hvm_unmap_grant env (hvm_unmap_xenstore env hvm5).1).1).1
                simp only [hvm_probe, hz, hb, h1, h2, h3, h4, hx, if_true]
                constructor
                · rw [hvm_remove, dmaBalance_append, dmaBalance_append,
                      dmaBalance_append, dmaBalance_append, dmaBalance_append,
                      dmaBalance_append, dmaBalance_append,
                      hd1, hd2, hd3, hd4, bu1.1, bu2.1, bu3.1, bu4.1]
                  ring
                · rw [hvm_remove, mapBalance_append, mapBalance_append,
                      mapBalance_append, mapBalance_append, mapBalance_append,
                      mapBalance_append, mapBalance_append,
                      hm1, hm2, hm3, hm4, bu1.2, bu2.2, bu3.2, bu4.2]
                  ring
              · have bu1 := bal_hvm_unmap_xenstore env hvm5
                have bu2 := bal_hvm_unmap_grant env
                  (hvm_unmap_xenstore env hvm5).1
                have bu3 := bal_hvm_unmap_shared_info env
                  (hvm_unmap_grant env (hvm_unmap_xenstore env hvm5).1).1
                have bu4 := bal_hvm_unmap_hypercall env
                  (hvm_unmap_shared_info env
                    (hvm_unmap_grant env (hvm_unmap_xenstore env hvm5).1).1).1
                simp only [hvm_probe, hz, hb, h1, h2, h3, h4, hx, if_true]
                constructor
                · left
                  rw [dmaBalance_append, dmaBalance_append, dmaBalance_append,
                      dmaBalance_append, dmaBalance_append, dmaBalance_append,
                      dmaBalance_append,
                      hd1, hd2, hd3, hd4, bu1.1, bu2.1, bu3.1, bu4.1]
                  ring
                · left
                  rw [mapBalance_append, mapBalance_append, mapBalance_append,
                      mapBalance_append, mapBalance_append, mapBalance_append,
                      mapBalance_append,
                      hm1, hm2, hm3, hm4, bu1.2, bu2.2, bu3.2, bu4.2]
                  ring

end HvmSpec
